import Mathlib

/-!
Shallow embedding of the DocuExplore Streamlit application (src/code_1.py).

The program is sequential orchestration around two external network
services.  External calls (genai upload, genai.get_file status polling,
chat send_message, title generation, tavily search) are modelled as
oracles passed explicitly: an oracle value is the outcome the remote
service would have produced on that call.  Python exceptions are
modelled with Except; the implicit None falling out of an exhausted
for-loop is modelled explicitly.  Side effects that the claims talk
about (sleeps, number of network attempts, temp-file lifecycle,
user-visible errors) are returned as explicit trace data.
-/

/-- The JSON-like payload the search service returns: ranked results
(title, url pairs) plus an optional synthesized answer
(spec section 6; consumed at src/code_1.py lines 222-228). -/
structure SearchResponse where
  results : List (String × String)
  answer : Option String
deriving DecidableEq, Repr

/-- Outcome of one `tavily_client.search` call inside `tavily_search`
(src/code_1.py line 60): a successful payload, an exception of class
`requests.exceptions.HTTPError`, or any other exception. -/
inductive TavilyOutcome where
  | ok (r : SearchResponse)
  | httpError
  | otherError
deriving DecidableEq

/-- Python's `str.strip()`: drop leading and trailing whitespace. -/
def pyStrip (s : String) : String :=
  String.mk (((s.data.dropWhile Char.isWhitespace).reverse.dropWhile Char.isWhitespace).reverse)

/-- The attempt loop of `tavily_search` (src/code_1.py lines 57-70),
run over the list of attempt indices `range(max_retries)`.  Returns
(result, sleep durations in seconds, number of search attempts made).
On success: return the payload at once.  On an HTTPError: if this was
the last attempt return None, else sleep 2^attempt and continue.  On
any other exception: return None at once. -/
def tavilyLoop (oracle : Nat → TavilyOutcome) (maxRetries : Int) :
    List Nat → Option SearchResponse × List Nat × Nat
  | [] => (none, [], 0)
  | attempt :: rest =>
    match oracle attempt with
    | .ok r => (some r, [], 1)
    | .httpError =>
      if (attempt : Int) = maxRetries - 1 then (none, [], 1)
      else
        let res := tavilyLoop oracle maxRetries rest
        (res.1, 2 ^ attempt :: res.2.1, res.2.2 + 1)
    | .otherError => (none, [], 1)

/-- `tavily_search(query, max_retries=3)` (src/code_1.py lines 53-70).
The guard `if not query.strip(): return None` is the trim test; the
for-loop runs over `range(max_retries)` (empty when
`max_retries <= 0`, in which case the function falls through and
returns the implicit None).  Components of the result: payload,
sleeps performed, attempts made. -/
def tavily_search (query : String) (maxRetries : Int)
    (oracle : Nat → TavilyOutcome) : Option SearchResponse × List Nat × Nat :=
  if pyStrip query = "" then (none, [], 0)
  else tavilyLoop oracle maxRetries (List.range maxRetries.toNat)

/-- Observable trace of one `wait_for_file_active` run
(src/code_1.py lines 33-42): the returned Bool, whether `st.error`
was shown, how many `genai.get_file` queries were made, and the sleep
durations between queries. -/
structure WaitTrace where
  ok : Bool
  errorShown : Bool
  queries : Nat
  sleeps : List Nat
deriving DecidableEq, Repr

/-- The polling loop of `wait_for_file_active`: `status i` is the
`state.name` string the i-th `genai.get_file` call reports.  The
while-loop has no bound, so the model takes fuel; `none` means the
loop was still running when the fuel ran out (the real loop would
still be blocking).  While the name is "PROCESSING" the code sleeps 2
seconds and queries again; at the first non-"PROCESSING" name it
returns `name == "ACTIVE"`, showing a user-visible error otherwise. -/
def waitLoop (status : Nat → String) : Nat → Nat → Option WaitTrace
  | _, 0 => none
  | i, fuel + 1 =>
    if status i = "PROCESSING" then
      match waitLoop status (i + 1) fuel with
      | none => none
      | some t => some ⟨t.ok, t.errorShown, t.queries + 1, 2 :: t.sleeps⟩
    else
      some ⟨status i == "ACTIVE", !(status i == "ACTIVE"), 1, []⟩

/-- `wait_for_file_active(file)` (src/code_1.py lines 33-42), started
at the first `genai.get_file` call. -/
def wait_for_file_active (status : Nat → String) (fuel : Nat) : Option WaitTrace :=
  waitLoop status 0 fuel

/-- The fixed instruction template of `generate_title_from_summary`
(src/code_1.py line 45). -/
def titlePrompt (summary : String) : String :=
  "Given the following summary of a document, generate a concise and descriptive title (maximum 5 words):\n\n"
    ++ summary ++ "\n\nTitle:"

/-- `generate_title_from_summary(model, summary)` (src/code_1.py
lines 44-51): `gen` is the outcome of `model.generate_content` on the
prompt.  On success return `response.text.strip()`; on any exception
log and return the fallback "Untitled Document". -/
def generate_title_from_summary (gen : String → Except String String)
    (summary : String) : String :=
  match gen (titlePrompt summary) with
  | .ok text => pyStrip text
  | .error _ => "Untitled Document"

/-- Local filesystem model for `upload_to_gemini`: an association of
paths to byte contents. -/
def fsWrite (fs : List (String × List Nat)) (path : String)
    (bytes : List Nat) : List (String × List Nat) :=
  (path, bytes) :: fs.filter (fun e => e.1 != path)

/-- `os.unlink`: remove the entry at `path`. -/
def fsUnlink (fs : List (String × List Nat)) (path : String) :
    List (String × List Nat) :=
  fs.filter (fun e => e.1 != path)

/-- Read the contents at `path`, if present. -/
def fsRead (fs : List (String × List Nat)) (path : String) : Option (List Nat) :=
  (fs.find? (fun e => e.1 == path)).map (fun e => e.2)

/-- Handle of a file uploaded to the document service. -/
structure GeminiFile where
  name : String
deriving DecidableEq, Repr

/-- Python's try/finally over the local filesystem: the body's outcome
(normal return or exception, an `Except`) is kept, and the cleanup
runs on the filesystem in both cases before the outcome propagates. -/
def tryFinallyFS (body : Except String GeminiFile)
    (cleanup : List (String × List Nat) → List (String × List Nat))
    (fs : List (String × List Nat)) :
    Except String GeminiFile × List (String × List Nat) :=
  (body, cleanup fs)

/-- `upload_to_gemini(uploaded_file)` (src/code_1.py lines 22-31):
write the PDF bytes to a NamedTemporaryFile at `tmpPath`, then
try: `genai.upload_file` (outcome `remote`) finally: `os.unlink` the
temp path.  Returns the remote outcome (an exception propagates) and
the final filesystem. -/
def upload_to_gemini (fileBytes : List Nat) (tmpPath : String)
    (remote : Except String GeminiFile) (fs : List (String × List Nat)) :
    Except String GeminiFile × List (String × List Nat) :=
  let fs1 := fsWrite fs tmpPath fileBytes
  tryFinallyFS remote (fun s => fsUnlink s tmpPath) fs1

/-- One entry of `st.session_state.chat_history`: a role/content
pair (src/code_1.py lines 203, 207). -/
structure ChatMessage where
  role : String
  content : String
deriving DecidableEq, Repr

/-- The chat session object created by `model.start_chat` at
src/code_1.py lines 171-178, identified by its seed: the uploaded
file and the fixed seed prompt. -/
structure ChatSession where
  seedFile : GeminiFile
  seedPrompt : String
deriving DecidableEq, Repr

/-- `model.start_chat(history=[...])` (src/code_1.py lines 171-178). -/
def start_chat (g : GeminiFile) : ChatSession :=
  ⟨g, "What is the main topic or subject of this PDF? Provide a brief summary in 2-3 sentences."⟩

/-- The Streamlit session state keys the orchestration uses.  A key
that may be absent from `st.session_state` is an Option;
`search_results` stores the value `tavily_search` returned, which may
itself be None, hence Option (Option _). -/
structure AppState where
  gemini_file : Option GeminiFile
  chat_session : Option ChatSession
  chat_history : List ChatMessage
  pdf_summary : Option String
  pdf_title : Option String
  search_results : Option (Option SearchResponse)
deriving DecidableEq, Repr

/-- The question-handling block (src/code_1.py lines 202-207): append
the user turn to chat_history, then `send_message` (outcome `reply`);
on success append the assistant turn; an exception propagates out of
the script run (second component), leaving the state as mutated so
far. -/
def handleQuestion (st : AppState) (q : String)
    (reply : Except String String) : AppState × Option String :=
  let st1 := { st with chat_history := st.chat_history ++ [⟨"user", q⟩] }
  match reply with
  | .ok text =>
    ({ st1 with chat_history := st1.chat_history ++ [⟨"assistant", text⟩] }, none)
  | .error e => (st1, some e)

/-- How many times the upload block invoked each external operation:
uploads (`upload_to_gemini`), summary turns (`send_message`), title
generations, searches. -/
structure Calls where
  uploads : Nat
  summaryTurns : Nat
  titleCalls : Nat
  searchCalls : Nat
deriving DecidableEq, Repr

/-- Oracles for the external calls the upload block makes:
the outcome of `upload_to_gemini`, the status names `get_file`
reports, the outcome of the summary `send_message` turn, the outcome
of `model.generate_content` for the title, and the per-attempt search
outcomes. -/
structure UploadOracles where
  remote : Except String GeminiFile
  status : Nat → String
  summaryRes : Except String String
  titleGen : String → Except String String
  searchStep : Nat → TavilyOutcome

/-- The module-level upload block (src/code_1.py lines 165-188), run
when a file is present in the uploader.  The whole block is guarded
by `if 'gemini_file' not in st.session_state`: when the key is
already set the block does nothing.  Otherwise: upload (an exception
leaves the key unset and propagates), `wait_for_file_active` (given
`fuel` polls of budget), and on True: `start_chat`, the summary turn
(an exception propagates with chat_session already set), then
`pdf_summary` is stored, `chat_history` is reset to [], the title is
generated and stored, and the search result is stored.  Returns the
new state, the call counts, and a propagated exception if any. -/
def runUploadBlock (st : AppState) (o : UploadOracles) (fuel : Nat) :
    AppState × Calls × Option String :=
  if st.gemini_file.isSome then (st, ⟨0, 0, 0, 0⟩, none)
  else
    match o.remote with
    | .error e => (st, ⟨1, 0, 0, 0⟩, some e)
    | .ok g =>
      let st1 := { st with gemini_file := some g }
      match wait_for_file_active o.status fuel with
      | some t =>
        if t.ok then
          let st2 := { st1 with chat_session := some (start_chat g) }
          match o.summaryRes with
          | .error e => (st2, ⟨1, 1, 0, 0⟩, some e)
          | .ok summaryText =>
            let st3 := { st2 with pdf_summary := some summaryText,
                                  chat_history := [] }
            let title := generate_title_from_summary o.titleGen summaryText
            let st4 := { st3 with pdf_title := some title }
            let sr := tavily_search ("Articles related to: " ++ title) 3 o.searchStep
            ({ st4 with search_results := some sr.1 }, ⟨1, 1, 1, 1⟩, none)
        else (st1, ⟨1, 0, 0, 0⟩, none)
      | none => (st1, ⟨1, 0, 0, 0⟩, none)

/-- A session in the READY state: a document has been processed, a
conversation exists, and all derived state is populated. -/
def readyState : AppState :=
  { gemini_file := some ⟨"files/doc1"⟩
    chat_session := some (start_chat ⟨"files/doc1"⟩)
    chat_history := [⟨"user", "hi"⟩, ⟨"assistant", "hello"⟩]
    pdf_summary := some "old summary"
    pdf_title := some "Old Title"
    search_results := some none }

/-- Oracles for a fresh upload whose every external call succeeds. -/
def demoOracles : UploadOracles :=
  { remote := .ok ⟨"files/doc2"⟩
    status := fun _ => "ACTIVE"
    summaryRes := .ok "new summary"
    titleGen := fun _ => .ok "New Title"
    searchStep := fun _ => .ok ⟨[], none⟩ }

/-! ## Claim theorems -/

/-- C5: for every query that is empty or consists only of whitespace,
`tavily_search` returns None immediately, performing zero sleeps and
zero search attempts (no network call). -/
theorem tavily_search_blank_query (q : String) (h : pyStrip q = "")
    (M : Int) (oracle : Nat → TavilyOutcome) :
    tavily_search q M oracle = (none, [], 0) := by
  simp [tavily_search, h]

/-- Witness for C5 at the whitespace query "   ". -/
theorem tavily_search_blank_query_witness :
    pyStrip "   " = "" ∧
    tavily_search "   " 3 (fun _ => .httpError) = (none, [], 0) :=
  ⟨by decide, tavily_search_blank_query "   " (by decide) 3 (fun _ => .httpError)⟩

/-- C10: for a non-blank query with `max_retries <= 0`, the retry loop
body never runs (range of a non-positive count is empty) and
`tavily_search` falls through to the implicit None, with zero search
attempts. -/
theorem tavily_search_nonpositive_retries (q : String) (hq : pyStrip q ≠ "")
    (M : Int) (hM : M ≤ 0) (oracle : Nat → TavilyOutcome) :
    tavily_search q M oracle = (none, [], 0) := by
  have hz : M.toNat = 0 := by omega
  simp [tavily_search, hq, hz, tavilyLoop]

/-- Witness for C10 at query "ai" and `max_retries = 0`. -/
theorem tavily_search_nonpositive_retries_witness :
    pyStrip "ai" ≠ "" ∧
    tavily_search "ai" 0 (fun _ => .otherError) = (none, [], 0) :=
  ⟨by decide,
   tavily_search_nonpositive_retries "ai" (by decide) 0 (by decide) (fun _ => .otherError)⟩

/-- C6: `generate_title_from_summary` returns the fallback
"Untitled Document" whenever the generation call raises, for every
summary input; on success it returns the generated text stripped of
surrounding whitespace. -/
theorem generate_title_fallback (gen : String → Except String String)
    (summary : String) :
    (∀ e, gen (titlePrompt summary) = .error e →
      generate_title_from_summary gen summary = "Untitled Document") ∧
    (∀ t, gen (titlePrompt summary) = .ok t →
      generate_title_from_summary gen summary = pyStrip t) := by
  constructor
  · intro e he; simp [generate_title_from_summary, he]
  · intro t ht; simp [generate_title_from_summary, ht]

/-- Witness for C6: a generator that always raises yields the fallback. -/
theorem generate_title_fallback_witness :
    generate_title_from_summary (fun _ => .error "boom") "any summary"
      = "Untitled Document" :=
  (generate_title_fallback (fun _ => .error "boom") "any summary").1 "boom" rfl

/-- C7: `upload_to_gemini` writes the PDF bytes to the temporary path
(the remote call runs against a filesystem holding exactly those
bytes), the temporary file is absent from the final filesystem on
both the success and the failure path of the remote upload, and the
remote outcome (value or exception) propagates unchanged. -/
theorem upload_to_gemini_temp_cleanup (fileBytes : List Nat) (tmpPath : String)
    (remote : Except String GeminiFile) (fs : List (String × List Nat)) :
    fsRead (fsWrite fs tmpPath fileBytes) tmpPath = some fileBytes ∧
    (upload_to_gemini fileBytes tmpPath remote fs).1 = remote ∧
    fsRead (upload_to_gemini fileBytes tmpPath remote fs).2 tmpPath = none := by
  refine ⟨by simp [fsRead, fsWrite], rfl, ?_⟩
  have hnone : ∀ l : List (String × List Nat),
      (l.filter (fun e => e.1 != tmpPath)).find? (fun e => e.1 == tmpPath) = none := by
    intro l
    rw [List.find?_eq_none]
    intro x hx
    have hpx := List.of_mem_filter hx
    simp only [bne_iff_ne, ne_eq, decide_eq_true_eq] at hpx
    simp [hpx]
  simp [upload_to_gemini, tryFinallyFS, fsUnlink, fsRead, hnone]

/-- C8: handling one question with a successful reply appends exactly
one user turn and one assistant reply to chat_history and leaves
pdf_summary, pdf_title and search_results (and the rest of the
session) unchanged, with no exception propagated. -/
theorem question_appends_one_turn (st : AppState) (q text : String) :
    (handleQuestion st q (.ok text)).1.chat_history
      = st.chat_history ++ [⟨"user", q⟩, ⟨"assistant", text⟩] ∧
    (handleQuestion st q (.ok text)).1.gemini_file = st.gemini_file ∧
    (handleQuestion st q (.ok text)).1.chat_session = st.chat_session ∧
    (handleQuestion st q (.ok text)).1.pdf_summary = st.pdf_summary ∧
    (handleQuestion st q (.ok text)).1.pdf_title = st.pdf_title ∧
    (handleQuestion st q (.ok text)).1.search_results = st.search_results ∧
    (handleQuestion st q (.ok text)).2 = none := by
  refine ⟨?_, rfl, rfl, rfl, rfl, rfl, rfl⟩
  simp [handleQuestion, List.append_assoc]

/-- C2: if the `send_message` call for a question raises, the
exception is surfaced for that turn only: the state keeps the chat
session, document and all derived values; chat_history gains only the
pending user turn; and a subsequent successful turn still appends its
user turn and assistant reply normally with no exception. -/
theorem chat_turn_error_isolated (st : AppState) (q e : String) :
    (handleQuestion st q (.error e)).2 = some e ∧
    (handleQuestion st q (.error e)).1.chat_history
      = st.chat_history ++ [⟨"user", q⟩] ∧
    (handleQuestion st q (.error e)).1.gemini_file = st.gemini_file ∧
    (handleQuestion st q (.error e)).1.chat_session = st.chat_session ∧
    (handleQuestion st q (.error e)).1.pdf_summary = st.pdf_summary ∧
    (handleQuestion st q (.error e)).1.pdf_title = st.pdf_title ∧
    (handleQuestion st q (.error e)).1.search_results = st.search_results ∧
    (∀ q2 t2,
      (handleQuestion (handleQuestion st q (.error e)).1 q2 (.ok t2)).1.chat_history
        = (handleQuestion st q (.error e)).1.chat_history
            ++ [⟨"user", q2⟩, ⟨"assistant", t2⟩] ∧
      (handleQuestion (handleQuestion st q (.error e)).1 q2 (.ok t2)).2 = none) := by
  refine ⟨rfl, rfl, rfl, rfl, rfl, rfl, rfl, ?_⟩
  intro q2 t2
  exact ⟨by simp [handleQuestion, List.append_assoc], rfl⟩

/-- C1 counterexample: in the READY state (gemini_file already in
session state), uploading a new document leaves the whole session
state unchanged — ChatHistory is NOT cleared (it is still non-empty),
the old summary survives, no external call is made, and the new
document's summary is never computed. -/
theorem reupload_in_ready_leaves_state_unchanged :
    runUploadBlock readyState demoOracles 5 = (readyState, ⟨0, 0, 0, 0⟩, none) ∧
    readyState.chat_history ≠ [] ∧
    readyState.pdf_summary = some "old summary" ∧
    (runUploadBlock readyState demoOracles 5).1.pdf_summary ≠ some "new summary" := by
  exact ⟨rfl, by decide, rfl, by decide⟩

/-- C1 (amended): when gemini_file is already present the upload
block performs no work at all — state, including ChatHistory,
DocumentSummary, DocumentTitle and SearchResultSet, is retained
unchanged and no external call is made; and in any single run of the
block each external operation (upload, summary turn, title
generation, search) is invoked at most once, so derived state is
computed at most once per session. -/
theorem upload_block_runs_once_per_session (st : AppState)
    (o : UploadOracles) (fuel : Nat) :
    (st.gemini_file.isSome = true →
      runUploadBlock st o fuel = (st, ⟨0, 0, 0, 0⟩, none)) ∧
    ((runUploadBlock st o fuel).2.1.uploads ≤ 1 ∧
     (runUploadBlock st o fuel).2.1.summaryTurns ≤ 1 ∧
     (runUploadBlock st o fuel).2.1.titleCalls ≤ 1 ∧
     (runUploadBlock st o fuel).2.1.searchCalls ≤ 1) := by
  constructor
  · intro h
    simp [runUploadBlock, h]
  · unfold runUploadBlock
    repeat' split
    all_goals simp

/-- Witness for C1's amended theorem at the concrete READY state. -/
theorem upload_block_runs_once_per_session_witness :
    runUploadBlock readyState demoOracles 5 = (readyState, ⟨0, 0, 0, 0⟩, none) :=
  (upload_block_runs_once_per_session readyState demoOracles 5).1 rfl

/-- Helper: if the first non-"PROCESSING" status is at index `k`, the
polling loop started at any index `a ≤ k` with enough fuel returns
the decision at `k`, having made `k - a + 1` queries with a fixed
2-second sleep before each re-query. -/
lemma waitLoop_terminal (status : Nat → String) (k : Nat)
    (hk : status k ≠ "PROCESSING") :
    ∀ fuel a, a ≤ k → (∀ i, a ≤ i → i < k → status i = "PROCESSING") →
      k - a < fuel →
      waitLoop status a fuel =
        some ⟨status k == "ACTIVE", !(status k == "ACTIVE"),
              k - a + 1, List.replicate (k - a) 2⟩ := by
  intro fuel
  induction fuel with
  | zero => intro a _ _ hfa; omega
  | succ fuel ih =>
    intro a ha hmid hfa
    rcases Nat.lt_or_ge a k with hak | hak
    · have hsa : status a = "PROCESSING" := hmid a le_rfl hak
      have hrec := ih (a + 1) hak (fun i h1 h2 => hmid i (by omega) h2) (by omega)
      have hd : k - a = (k - (a + 1)) + 1 := by omega
      simp only [waitLoop, if_pos hsa, hrec, hd, List.replicate_succ]
    · have hae : a = k := le_antisymm ha hak
      subst hae
      simp only [waitLoop, if_neg hk, Nat.sub_self, List.replicate_zero]

/-- Helper: a service that reports "PROCESSING" forever keeps the
polling loop running past any fuel bound. -/
lemma waitLoop_processing_forever (status : Nat → String)
    (hall : ∀ k, status k = "PROCESSING") :
    ∀ fuel a, waitLoop status a fuel = none := by
  intro fuel
  induction fuel with
  | zero => intro a; rfl
  | succ fuel ih => intro a; simp [waitLoop, hall a, ih (a + 1)]

/-- C4: when the first terminal (non-"PROCESSING") status is reported
at query `k`, `wait_for_file_active` makes `k + 1` status queries
sleeping 2 seconds before each re-query, returns `true` exactly when
that terminal status is "ACTIVE", and shows the user-visible error
exactly when it is not. -/
theorem wait_for_file_active_terminal (status : Nat → String) (k fuel : Nat)
    (hk : status k ≠ "PROCESSING")
    (hbefore : ∀ i, i < k → status i = "PROCESSING")
    (hfuel : k < fuel) :
    wait_for_file_active status fuel =
      some ⟨status k == "ACTIVE", !(status k == "ACTIVE"),
            k + 1, List.replicate k 2⟩ := by
  have h := waitLoop_terminal status k hk fuel 0 (Nat.zero_le k)
    (fun i _ h2 => hbefore i h2) (by omega)
  simpa [wait_for_file_active] using h

/-- Witness for C4: two "PROCESSING" reports then "ACTIVE" gives
three queries, two 2-second sleeps, result true, no error. -/
theorem wait_for_file_active_terminal_witness :
    wait_for_file_active (fun i => if i < 2 then "PROCESSING" else "ACTIVE") 4 =
      some ⟨true, false, 3, [2, 2]⟩ := by
  have h := wait_for_file_active_terminal
    (fun i => if i < 2 then "PROCESSING" else "ACTIVE") 2 4
    (by decide) (by decide) (by decide)
  simpa using h

/-- C9: the polling loop has no upper bound on the number of polls:
whenever some query reports a non-"PROCESSING" status the loop
terminates (some fuel suffices) with every sleep between attempts a
fixed 2 seconds, but against a service that reports "PROCESSING"
forever it is still running after every fuel bound. -/
theorem wait_for_file_active_unbounded (status : Nat → String) :
    ((∃ k, status k ≠ "PROCESSING") →
      ∃ fuel t, wait_for_file_active status fuel = some t ∧
        ∀ d ∈ t.sleeps, d = 2) ∧
    ((∀ k, status k = "PROCESSING") →
      ∀ fuel, wait_for_file_active status fuel = none) := by
  constructor
  · intro h
    have hk : status (Nat.find h) ≠ "PROCESSING" := Nat.find_spec h
    have hb : ∀ i, i < Nat.find h → status i = "PROCESSING" := by
      intro i hi
      have hmin := Nat.find_min h hi
      simpa using hmin
    have hterm := waitLoop_terminal status (Nat.find h) hk (Nat.find h + 1) 0
      (Nat.zero_le _) (fun i _ h2 => hb i h2) (by omega)
    exact ⟨Nat.find h + 1, _, hterm,
      fun d hd => List.eq_of_mem_replicate hd⟩
  · intro h fuel
    exact waitLoop_processing_forever status h fuel 0

/-- Helper: if attempts `a, …, k-1` raise HTTPError and attempt `k`
succeeds with payload `r` (with `k` inside the retry budget), the
loop from attempt `a` returns the payload, having slept
`2^a, …, 2^(k-1)` seconds and made `k - a + 1` attempts. -/
lemma tavilyLoop_ok_after_http (oracle : Nat → TavilyOutcome) (M : Int)
    (r : SearchResponse) (k : Nat) (hok : oracle k = .ok r)
    (hkM : (k : Int) < M) :
    ∀ n a, a + n = M.toNat → a ≤ k →
      (∀ i, a ≤ i → i < k → oracle i = .httpError) →
      tavilyLoop oracle M (List.range' a n) =
        (some r, (List.range' a (k - a)).map (2 ^ ·), k - a + 1) := by
  intro n
  induction n with
  | zero => intro a han hak _; omega
  | succ n ih =>
    intro a han hak hmid
    rcases Nat.lt_or_ge a k with h | h
    · have hha : oracle a = .httpError := hmid a le_rfl h
      have hrec := ih (a + 1) (by omega) h (fun i h1 h2 => hmid i (by omega) h2)
      have hd : k - a = (k - (a + 1)) + 1 := by omega
      rw [List.range'_succ]
      simp only [tavilyLoop, hha, if_neg (by omega : ¬ ((a : Int) = M - 1)),
        hrec, hd, List.range'_succ, List.map_cons]
    · have hae : a = k := le_antisymm hak h
      subst hae
      rw [List.range'_succ]
      simp only [tavilyLoop, hok, Nat.sub_self, List.range'_zero, List.map_nil]

/-- Helper: if attempts `a, …, k-1` raise HTTPError and attempt `k`
raises a non-HTTP exception (with `k` inside the retry budget), the
loop from attempt `a` returns None at attempt `k` without further
attempts: `k - a + 1` attempts, sleeps `2^a, …, 2^(k-1)`. -/
lemma tavilyLoop_other_after_http (oracle : Nat → TavilyOutcome) (M : Int)
    (k : Nat) (hother : oracle k = .otherError) (hkM : (k : Int) < M) :
    ∀ n a, a + n = M.toNat → a ≤ k →
      (∀ i, a ≤ i → i < k → oracle i = .httpError) →
      tavilyLoop oracle M (List.range' a n) =
        (none, (List.range' a (k - a)).map (2 ^ ·), k - a + 1) := by
  intro n
  induction n with
  | zero => intro a han hak _; omega
  | succ n ih =>
    intro a han hak hmid
    rcases Nat.lt_or_ge a k with h | h
    · have hha : oracle a = .httpError := hmid a le_rfl h
      have hrec := ih (a + 1) (by omega) h (fun i h1 h2 => hmid i (by omega) h2)
      have hd : k - a = (k - (a + 1)) + 1 := by omega
      rw [List.range'_succ]
      simp only [tavilyLoop, hha, if_neg (by omega : ¬ ((a : Int) = M - 1)),
        hrec, hd, List.range'_succ, List.map_cons]
    · have hae : a = k := le_antisymm hak h
      subst hae
      rw [List.range'_succ]
      simp only [tavilyLoop, hother, Nat.sub_self, List.range'_zero, List.map_nil]

/-- Helper: if every attempt inside the budget raises HTTPError, the
loop exhausts all `n` remaining attempts, sleeping after each but the
last, and returns None. -/
lemma tavilyLoop_all_http (oracle : Nat → TavilyOutcome) (M : Int)
    (hall : ∀ i : Nat, (i : Int) < M → oracle i = .httpError) :
    ∀ n a, a + n = M.toNat → 0 < n →
      tavilyLoop oracle M (List.range' a n) =
        (none, (List.range' a (n - 1)).map (2 ^ ·), n) := by
  intro n
  induction n with
  | zero => intro a _ h; omega
  | succ n ih =>
    intro a han _
    have hha : oracle a = .httpError := hall a (by omega)
    rcases n with _ | m
    · rw [List.range'_succ]
      simp only [tavilyLoop, hha, if_pos (by omega : (a : Int) = M - 1),
        Nat.sub_self, List.range'_zero, List.map_nil]
    · have hrec := ih (a + 1) (by omega) (Nat.succ_pos m)
      have step : tavilyLoop oracle M (List.range' a (m + 1 + 1)) =
          ((tavilyLoop oracle M (List.range' (a + 1) (m + 1))).1,
           2 ^ a :: (tavilyLoop oracle M (List.range' (a + 1) (m + 1))).2.1,
           (tavilyLoop oracle M (List.range' (a + 1) (m + 1))).2.2 + 1) := by
        rw [List.range'_succ]
        simp only [tavilyLoop, hha, if_neg (by omega : ¬ ((a : Int) = M - 1))]
      rw [step, hrec]
      simp only [Nat.add_sub_cancel]
      rw [List.range'_succ]
      simp

/-- C3: for every non-blank query, `tavily_search` performs up to
`maxRetries` attempts: if the first `k` attempts raise HTTPError and
attempt `k` succeeds it returns that payload at once after backoff
sleeps `2^0, …, 2^(k-1)`; if every attempt raises HTTPError it
exhausts all `maxRetries` attempts (sleeping after each but the last)
and returns None; and if, after HTTP errors only, some attempt raises
a non-HTTP exception it returns None immediately with no further
attempts. -/
theorem tavily_search_retry_policy (q : String) (hq : pyStrip q ≠ "")
    (M : Int) (oracle : Nat → TavilyOutcome) :
    (∀ (k : Nat) (r : SearchResponse), (k : Int) < M →
      (∀ i, i < k → oracle i = .httpError) → oracle k = .ok r →
      tavily_search q M oracle =
        (some r, (List.range k).map (2 ^ ·), k + 1)) ∧
    (0 < M → (∀ i : Nat, (i : Int) < M → oracle i = .httpError) →
      tavily_search q M oracle =
        (none, (List.range (M.toNat - 1)).map (2 ^ ·), M.toNat)) ∧
    (∀ k : Nat, (k : Int) < M → (∀ i, i < k → oracle i = .httpError) →
      oracle k = .otherError →
      tavily_search q M oracle =
        (none, (List.range k).map (2 ^ ·), k + 1)) := by
  refine ⟨?_, ?_, ?_⟩
  · intro k r hkM hpre hok
    simp only [tavily_search, if_neg hq, List.range_eq_range']
    have h := tavilyLoop_ok_after_http oracle M r k hok hkM M.toNat 0
      (by omega) (by omega) (fun i _ h2 => hpre i h2)
    simpa using h
  · intro hM hall
    simp only [tavily_search, if_neg hq, List.range_eq_range']
    exact tavilyLoop_all_http oracle M hall M.toNat 0 (by omega) (by omega)
  · intro k hkM hpre hother
    simp only [tavily_search, if_neg hq, List.range_eq_range']
    have h := tavilyLoop_other_after_http oracle M k hother hkM M.toNat 0
      (by omega) (by omega) (fun i _ h2 => hpre i h2)
    simpa using h

/-- Search oracle for the C3 witness: HTTPError on attempts 0 and 1,
success on attempt 2. -/
def retryWitnessOracle : Nat → TavilyOutcome := fun i =>
  if i < 2 then .httpError else .ok ⟨[("t", "u")], some "ans"⟩

/-- Witness for C3: with two HTTP errors then a success and
`max_retries = 3`, the search returns the successful payload after
backoff sleeps of 1 and 2 seconds and three attempts. -/
theorem tavily_search_retry_policy_witness :
    pyStrip "ai" ≠ "" ∧
    tavily_search "ai" 3 retryWitnessOracle =
      (some ⟨[("t", "u")], some "ans"⟩, [1, 2], 3) := by
  refine ⟨by decide, ?_⟩
  have h := (tavily_search_retry_policy "ai" (by decide) 3 retryWitnessOracle).1 2
    ⟨[("t", "u")], some "ans"⟩ (by decide) (by decide) (by decide)
  rw [h]
  decide

/-- Witness for C9: against a service that reports "PROCESSING"
forever, the loop is still running after a fuel bound of 5. -/
theorem wait_for_file_active_unbounded_witness :
    wait_for_file_active (fun _ => "PROCESSING") 5 = none :=
  (wait_for_file_active_unbounded (fun _ => "PROCESSING")).2 (fun _ => rfl) 5
